import Mathlib

/-!
Verification of the go-nebulas RPC API service (`rpc/api_service.go`).

The handlers in the source file are pure control flow over a set of external
collaborators (block chain store, transaction pool, account manager, payload
serializers, hash functions).  We embed the handlers as Lean functions over a
`Neblet` record whose fields are those collaborators; theorems quantify over
all collaborator behaviours.  Go's `(value, error)` returns become `Except`
or explicit pairs; nil pointers/slices become `Option`; `[]byte` becomes
`List Nat`; `uint64`/`Uint128` become `Nat`.
-/

/-- Byte strings (`[]byte`). -/
abbrev Bytes := List Nat

/-- Go errors carry only their message here (`errors.New`). -/
abbrev GoError := String

/-- A parsed account address (`core.Address`): its raw bytes (`Bytes()`) and its
canonical string encoding (`String()`). -/
structure Address where
  bytes : Bytes
  str : String

/-- A chain execution event (`core.Event`): topic string plus payload. -/
structure Event where
  topic : String
  data : String

/-- A canonical transaction (`core.Transaction`), the fields the handlers read. -/
structure Transaction where
  chainID : Nat
  fromAddr : Address
  toAddr : Address
  value : Nat
  nonce : Nat
  timestamp : Int
  payloadType : String
  payload : Bytes
  gasPrice : Nat
  gasLimit : Nat

/-- The per-block dpos context roots read by `toBlockResponse`. -/
structure DposContext where
  dynastyRoot : Bytes
  nextDynastyRoot : Bytes
  delegateRoot : Bytes
  candidateRoot : Bytes
  voteRoot : Bytes
  mintCntRoot : Bytes

/-- A block (`core.Block`): the display fields the handlers read, plus the
state-query and lookup collaborator methods used on blocks.  `fetchEvents` and
`getTransaction` return Go's `(value, error)` pairs; the first component is
`none` for a nil slice / nil pointer. -/
structure Block where
  hash : Bytes
  parentHash : Bytes
  height : Nat
  nonce : Nat
  coinbase : Address
  miner : Address
  timestamp : Int
  chainID : Nat
  stateRoot : Bytes
  txsRoot : Bytes
  eventsRoot : Bytes
  dposContext : DposContext
  transactions : List Transaction
  getBalance : Bytes → Nat
  getNonce : Bytes → Nat
  fetchEvents : Bytes → Option (List Event) × Option GoError
  getTransaction : Bytes → Option Transaction × Option GoError

/-- The contract payload group of a transaction request
(`rpcpb.TransactionRequest.Contract`). -/
structure ContractRequest where
  source : String
  sourceType : String
  function : String
  args : String

/-- The candidate payload group (`rpcpb.TransactionRequest.Candidate`). -/
structure CandidateRequest where
  action : String

/-- The delegate payload group (`rpcpb.TransactionRequest.Delegate`). -/
structure DelegateRequest where
  action : String
  delegatee : String

/-- `rpcpb.TransactionRequest`.  `fromStr`/`toStr` are the `From`/`To` address
strings (`from` is a Lean keyword); the numeric fields cross the boundary as
decimal strings; the three optional payload groups are nil-able pointers. -/
structure TransactionRequest where
  fromStr : String
  toStr : String
  value : String
  nonce : Nat
  gasPrice : String
  gasLimit : String
  contract : Option ContractRequest
  candidate : Option CandidateRequest
  delegate : Option DelegateRequest

/-- `rpcpb.SendTransactionResponse`; `contractAddress` defaults to `""`
(proto3 zero value) when not set. -/
structure SendTransactionResponse where
  txhash : String
  contractAddress : String

/-- `rpcpb.GetAccountStateRequest`; proto3 leaves an unset height at `0`. -/
structure GetAccountStateRequest where
  address : String
  height : Nat

/-- `rpcpb.GetAccountStateResponse`: balance and nonce as decimal strings. -/
structure GetAccountStateResponse where
  balance : String
  nonce : String

/-- `rpcpb.TransactionResponse`. -/
structure TransactionResponse where
  chainId : Nat
  hash : String
  fromStr : String
  toStr : String
  value : String
  nonce : Nat
  timestamp : Int
  type : String
  data : Bytes
  gasPrice : String
  gasLimit : String
  status : Nat
  contractAddress : String

/-- The dpos part of `rpcpb.BlockResponse`. -/
structure DposContextResponse where
  dynastyRoot : String
  nextDynastyRoot : String
  delegateRoot : String
  candidateRoot : String
  voteRoot : String
  mintCntRoot : String

/-- `rpcpb.BlockResponse`; `transactions` defaults to the empty list (proto3
zero value) when never assigned. -/
structure BlockResponse where
  hash : String
  parentHash : String
  height : Nat
  nonce : Nat
  coinbase : String
  miner : String
  timestamp : Int
  chainId : Nat
  stateRoot : String
  txsRoot : String
  eventsRoot : String
  dposContext : DposContextResponse
  transactions : List TransactionResponse

/-- `rpcpb.GasResponse`. -/
structure GasResponse where
  gas : String

/-- `rpcpb.Event`. -/
structure EventResponse where
  topic : String
  data : String

/-- `rpcpb.EventsResponse`. -/
structure EventsResponse where
  events : List EventResponse

/-- `rpcpb.HashRequest`. -/
structure HashRequest where
  hash : String

/-- `rpcpb.GetBlockByHashRequest`. -/
structure GetBlockByHashRequest where
  hash : String
  fullTransaction : Bool

/-- `rpcpb.GetBlockByHeightRequest`. -/
structure GetBlockByHeightRequest where
  height : Nat
  fullTransaction : Bool

/-- The environment the handlers run in: the `Neblet` and all external
collaborators reached through it.  Each field mirrors the signature visible at
its call sites in `api_service.go`:
* `addressParse` — `core.AddressParse` (string → address or error);
* `fromHex` — `byteutils.FromHex`, Go's `([]byte, error)` pair;
* `newUint128FromString` — `util.NewUint128FromString`; the call sites
  (`value := util.NewUint128FromString(reqTx.Value)`) fix a single,
  non-error return, so malformed strings cannot fail at the type level;
* `signTransactionErr` — `AccountManager().SignTransaction`, returning only
  its error (the signature it adds is not read by any handler);
* `pushAndBroadcastErr` — `TransactionPool().PushAndBroadcast`'s error;
* `sha3256` — `hash.Sha3256` over a list of byte-string arguments;
* `newContractAddressFromHash` — `core.NewContractAddressFromHash`, whose
  error return is discarded at the call site (`address, _ :=`);
* `txHash` — `core.Transaction.Hash()`, the hash computed over the
  transaction's canonical fields;
* `hexOf` — hex string rendering of a byte string (`byteutils.Hex` /
  `Hash.String`);
* `now` — the clock used for a new transaction's timestamp;
* `deployPayloadBytes` etc. — `core.NewDeployPayload(...).ToBytes()` and the
  other payload serializers, each returning bytes or an error. -/
structure Neblet where
  chainID : Nat
  tailBlock : Block
  latestIrreversibleBlock : Option Block
  getBlockOnCanonicalChainByHeight : Nat → Option Block
  getBlock : Bytes → Option Block
  getTransaction : Bytes → Option Transaction
  addressParse : String → Except GoError Address
  fromHex : String → Bytes × Option GoError
  newUint128FromString : String → Nat
  signTransactionErr : Address → Transaction → Option GoError
  pushAndBroadcastErr : Transaction → Option GoError
  estimateGas : Transaction → Except GoError Nat
  sha3256 : List Bytes → Bytes
  newContractAddressFromHash : Bytes → Address
  txHash : Transaction → Bytes
  hexOf : Bytes → String
  now : Int
  deployPayloadBytes : String → String → String → Except GoError Bytes
  callPayloadBytes : String → String → Except GoError Bytes
  candidatePayloadBytes : String → Except GoError Bytes
  delegatePayloadBytes : String → String → Except GoError Bytes

/-- Modelled from the spec: the `core` payload-type constants
(`core.TxPayloadBinaryType` etc.) are not under `src/`; only their mutual
distinctness matters to the handlers. -/
def TxPayloadBinaryType : String := "binary"

/-- Payload-type tag for contract deployments (`core.TxPayloadDeployType`). -/
def TxPayloadDeployType : String := "deploy"

/-- Payload-type tag for contract calls (`core.TxPayloadCallType`). -/
def TxPayloadCallType : String := "call"

/-- Payload-type tag for candidate actions (`core.TxPayloadCandidateType`). -/
def TxPayloadCandidateType : String := "candidate"

/-- Payload-type tag for delegate actions (`core.TxPayloadDelegateType`). -/
def TxPayloadDelegateType : String := "delegate"

/-- Modelled from the spec: the execution-result event topics
(`core.TopicExecuteTxSuccess` / `core.TopicExecuteTxFailed`) are not under
`src/`; only their distinctness matters. -/
def TopicExecuteTxSuccess : String := "chain.executeTxSuccess"

/-- The failed-execution event topic (`core.TopicExecuteTxFailed`). -/
def TopicExecuteTxFailed : String := "chain.executeTxFailed"

/-- Network message kind for new-block announcements
(`core.MessageTypeNewBlock`). -/
def MessageTypeNewBlock : String := "newblock"

/-- Network message kind for new-transaction announcements
(`core.MessageTypeNewTx`). -/
def MessageTypeNewTx : String := "newtx"

/-- Modelled from the spec: `byteutils.FromUint64` is not under `src/`; it is
the big-endian 8-byte encoding of a 64-bit unsigned integer ("nonce bytes" in
the contract-address derivation). -/
def fromUint64 (n : Nat) : Bytes :=
  [n / 2 ^ 56 % 256, n / 2 ^ 48 % 256, n / 2 ^ 40 % 256, n / 2 ^ 32 % 256,
   n / 2 ^ 24 % 256, n / 2 ^ 16 % 256, n / 2 ^ 8 % 256, n % 256]

/-- Modelled from the spec: `core.NewTransaction` is not under `src/`.
Spec §4.2 (TransactionAssembler): it builds a canonical transaction from the
given chain id, parsed addresses, value, nonce, payload tag and bytes, gas
price and gas limit; the timestamp comes from the node's clock. -/
def newTransaction (neb : Neblet) (chainID : Nat) (fromAddr toAddr : Address)
    (value nonce : Nat) (payloadType : String) (payload : Bytes)
    (gasPrice gasLimit : Nat) : Transaction :=
  { chainID := chainID, fromAddr := fromAddr, toAddr := toAddr, value := value,
    nonce := nonce, timestamp := neb.now, payloadType := payloadType,
    payload := payload, gasPrice := gasPrice, gasLimit := gasLimit }

/-- Modelled from the spec: `core.Transaction.GenerateContractAddress` is not
under `src/`.  Spec §3 (ContractAddress): the contract address is derived as a
hash over (from-address bytes ‖ nonce bytes), recomputed at receipt time, and
must match the submission-time value computed inline in `sendTransaction`. -/
def generateContractAddress (neb : Neblet) (tx : Transaction) : Address :=
  neb.newContractAddressFromHash (neb.sha3256 [tx.fromAddr.bytes, fromUint64 tx.nonce])

/-- The candidate/delegate/binary tail of `parseTransaction`'s payload
selection chain (`api_service.go:247-255`): candidate group present wins over
delegate group; with no group the payload type is binary and the payload stays
nil. -/
def selectNonContract (neb : Neblet) (reqTx : TransactionRequest) :
    String × Except GoError Bytes :=
  match reqTx.candidate with
  | some cd => (TxPayloadCandidateType, neb.candidatePayloadBytes cd.action)
  | none =>
    match reqTx.delegate with
    | some d => (TxPayloadDelegateType, neb.delegatePayloadBytes d.action d.delegatee)
    | none => (TxPayloadBinaryType, Except.ok [])

/-- The payload selection chain of `parseTransaction`
(`api_service.go:241-255`): a non-nil contract group with non-empty `Source`
selects Deploy; otherwise a non-nil contract group with non-empty `Function`
selects Call; otherwise the candidate/delegate/binary tail decides. -/
def selectPayload (neb : Neblet) (reqTx : TransactionRequest) :
    String × Except GoError Bytes :=
  match reqTx.contract with
  | some c =>
    if 0 < c.source.length then
      (TxPayloadDeployType, neb.deployPayloadBytes c.source c.sourceType c.args)
    else if 0 < c.function.length then
      (TxPayloadCallType, neb.callPayloadBytes c.function c.args)
    else
      selectNonContract neb reqTx
  | none => selectNonContract neb reqTx

/-- `parseTransaction` (`api_service.go:223-262`): parse both addresses
(propagating errors), convert the three decimal-string numeric fields with the
single-return `NewUint128FromString`, select and serialize the payload, and
assemble the transaction. -/
def parseTransaction (neb : Neblet) (reqTx : TransactionRequest) :
    Except GoError Transaction :=
  match neb.addressParse reqTx.fromStr with
  | Except.error e => Except.error e
  | Except.ok fromAddr =>
    match neb.addressParse reqTx.toStr with
    | Except.error e => Except.error e
    | Except.ok toAddr =>
      let value := neb.newUint128FromString reqTx.value
      let gasPrice := neb.newUint128FromString reqTx.gasPrice
      let gasLimit := neb.newUint128FromString reqTx.gasLimit
      let sel := selectPayload neb reqTx
      match sel.2 with
      | Except.error e => Except.error e
      | Except.ok payload =>
        Except.ok (newTransaction neb neb.chainID fromAddr toAddr value
          reqTx.nonce sel.1 payload gasPrice gasLimit)

/-- Which collaborators a `sendTransaction` call actually invoked:
the signing collaborator (`AccountManager().SignTransaction`) and the pool
collaborator (`TransactionPool().PushAndBroadcast`). -/
structure SubmitEffects where
  signed : Bool
  pushed : Bool

/-- `sendTransaction` (`api_service.go:187-221`): parse the sender address,
reject the request when its nonce is `≤` the sender's nonce at the tail block,
then build, sign and submit the transaction; a Deploy transaction's response
additionally carries the contract address derived from the hash of
(from-address bytes ‖ nonce bytes).  The second component records which
collaborators were invoked. -/
def sendTransaction (neb : Neblet) (req : TransactionRequest) :
    Except GoError SendTransactionResponse × SubmitEffects :=
  let tail := neb.tailBlock
  match neb.addressParse req.fromStr with
  | Except.error e => (Except.error e, ⟨false, false⟩)
  | Except.ok addr =>
    if req.nonce ≤ tail.getNonce addr.bytes then
      (Except.error "nonce is invalid", ⟨false, false⟩)
    else
      match parseTransaction neb req with
      | Except.error e => (Except.error e, ⟨false, false⟩)
      | Except.ok tx =>
        match neb.signTransactionErr tx.fromAddr tx with
        | some e => (Except.error e, ⟨true, false⟩)
        | none =>
          match neb.pushAndBroadcastErr tx with
          | some e => (Except.error e, ⟨true, true⟩)
          | none =>
            if tx.payloadType = TxPayloadDeployType then
              let address := neb.newContractAddressFromHash
                (neb.sha3256 [tx.fromAddr.bytes, fromUint64 tx.nonce])
              (Except.ok { txhash := neb.hexOf (neb.txHash tx),
                           contractAddress := address.str }, ⟨true, true⟩)
            else
              (Except.ok { txhash := neb.hexOf (neb.txHash tx),
                           contractAddress := "" }, ⟨true, true⟩)

/-- `GetAccountState` (`api_service.go:126-156`): parse the address, use the
tail block unless a height `> 0` is given, in which case the height must
resolve on the canonical chain or the call fails with "block not found";
return the block's balance and nonce for the address as decimal strings. -/
def GetAccountState (neb : Neblet) (req : GetAccountStateRequest) :
    Except GoError GetAccountStateResponse :=
  match neb.addressParse req.address with
  | Except.error e => Except.error e
  | Except.ok addr =>
    let block := neb.tailBlock
    if 0 < req.height then
      match neb.getBlockOnCanonicalChainByHeight req.height with
      | none => Except.error "block not found"
      | some b =>
        Except.ok { balance := toString (b.getBalance addr.bytes),
                    nonce := toString (b.getNonce addr.bytes) }
    else
      Except.ok { balance := toString (block.getBalance addr.bytes),
                  nonce := toString (block.getNonce addr.bytes) }

/-- The status loop of `toTransactionResponse` (`api_service.go:432-441`):
`status` starts at 0; the loop breaks with 1 at the first success-topic event,
breaks with 0 at the first failed-topic event, and otherwise leaves 0. -/
def statusLoop : List Event → Nat
  | [] => 0
  | e :: rest =>
    if e.topic = TopicExecuteTxSuccess then 1
    else if e.topic = TopicExecuteTxFailed then 0
    else statusLoop rest

/-- `toTransactionResponse` (`api_service.go:424-467`): fetch the tail block's
events for the transaction hash (the fetch error is discarded); a nil event
list gives status 2, otherwise the status loop decides; a Deploy transaction's
response carries the recomputed contract address. -/
def toTransactionResponse (neb : Neblet) (tx : Transaction) : TransactionResponse :=
  let events := (neb.tailBlock.fetchEvents (neb.txHash tx)).1
  let status : Nat :=
    match events with
    | none => 2
    | some evs => statusLoop evs
  { chainId := tx.chainID
    hash := neb.hexOf (neb.txHash tx)
    fromStr := tx.fromAddr.str
    toStr := tx.toAddr.str
    value := toString tx.value
    nonce := tx.nonce
    timestamp := tx.timestamp
    type := tx.payloadType
    data := tx.payload
    gasPrice := toString tx.gasPrice
    gasLimit := toString tx.gasLimit
    status := status
    contractAddress :=
      if tx.payloadType = TxPayloadDeployType then
        (generateContractAddress neb tx).str
      else "" }

/-- `GetTransactionReceipt` (`api_service.go:407-422`): hex-decode the hash
(the decode error is discarded), look the transaction up on the chain, fail
with "transaction not found" when absent, otherwise format it. -/
def GetTransactionReceipt (neb : Neblet) (req : HashRequest) :
    Except GoError TransactionResponse :=
  let bhash := (neb.fromHex req.hash).1
  match neb.getTransaction bhash with
  | none => Except.error "transaction not found"
  | some tx => Except.ok (toTransactionResponse neb tx)

/-- A `rpcpb.TransactionResponse` with every field at its proto3 zero value,
as produced by `&rpcpb.TransactionResponse{Hash: ...}` before `Hash` is set. -/
def emptyTransactionResponse : TransactionResponse :=
  { chainId := 0, hash := "", fromStr := "", toStr := "", value := "",
    nonce := 0, timestamp := 0, type := "", data := [], gasPrice := "",
    gasLimit := "", status := 0, contractAddress := "" }

/-- `toBlockResponse` (`api_service.go:335-378`): a nil block fails with
"block not found"; otherwise the response carries the block header fields and
the dpos context roots.  The source then computes `txs` — full transaction
detail per transaction when `fullTransaction` is set, hash-only otherwise —
but never assigns it to the response, so the response's transaction list stays
at its zero value; the dead computation is mirrored here as the unused
binding. -/
def toBlockResponse (neb : Neblet) (block : Option Block) (fullTransaction : Bool) :
    Except GoError BlockResponse :=
  match block with
  | none => Except.error "block not found"
  | some b =>
    let resp : BlockResponse :=
      { hash := neb.hexOf b.hash
        parentHash := neb.hexOf b.parentHash
        height := b.height
        nonce := b.nonce
        coinbase := b.coinbase.str
        miner := b.miner.str
        timestamp := b.timestamp
        chainId := b.chainID
        stateRoot := neb.hexOf b.stateRoot
        txsRoot := neb.hexOf b.txsRoot
        eventsRoot := neb.hexOf b.eventsRoot
        dposContext :=
          { dynastyRoot := neb.hexOf b.dposContext.dynastyRoot
            nextDynastyRoot := neb.hexOf b.dposContext.nextDynastyRoot
            delegateRoot := neb.hexOf b.dposContext.delegateRoot
            candidateRoot := neb.hexOf b.dposContext.candidateRoot
            voteRoot := neb.hexOf b.dposContext.voteRoot
            mintCntRoot := neb.hexOf b.dposContext.mintCntRoot }
        transactions := [] }
    let _txs := b.transactions.map (fun v =>
      if fullTransaction then toTransactionResponse neb v
      else { emptyTransactionResponse with hash := neb.hexOf (neb.txHash v) })
    Except.ok resp

/-- `GetBlockByHash` (`api_service.go:301-318`): hex-decode the hash
(propagating the decode error), look the block up, format it. -/
def GetBlockByHash (neb : Neblet) (req : GetBlockByHashRequest) :
    Except GoError BlockResponse :=
  match neb.fromHex req.hash with
  | (_, some e) => Except.error e
  | (bhash, none) => toBlockResponse neb (neb.getBlock bhash) req.fullTransaction

/-- `GetBlockByHeight` (`api_service.go:321-333`). -/
def GetBlockByHeight (neb : Neblet) (req : GetBlockByHeightRequest) :
    Except GoError BlockResponse :=
  toBlockResponse neb (neb.getBlockOnCanonicalChainByHeight req.height)
    req.fullTransaction

/-- `LatestIrreversibleBlock` (`api_service.go:394-404`): always formatted
without full transactions. -/
def LatestIrreversibleBlock (neb : Neblet) : Except GoError BlockResponse :=
  toBlockResponse neb neb.latestIrreversibleBlock false

/-- `EstimateGas` (`api_service.go:554-570`): build the transaction and
delegate to the dry-run estimator. -/
def EstimateGas (neb : Neblet) (req : TransactionRequest) :
    Except GoError GasResponse :=
  match parseTransaction neb req with
  | Except.error e => Except.error e
  | Except.ok tx =>
    match neb.estimateGas tx with
    | Except.error e => Except.error e
    | Except.ok g => Except.ok { gas := toString g }

/-- `GetGasUsed` (`api_service.go:573-596`): hex-decode the hash (propagating
the decode error), resolve the transaction — failing with "transaction not
found" when absent — and only then invoke the dry-run estimator.  The second
component records whether the estimator was invoked. -/
def GetGasUsed (neb : Neblet) (req : HashRequest) :
    Except GoError GasResponse × Bool :=
  match neb.fromHex req.hash with
  | (_, some e) => (Except.error e, false)
  | (h, none) =>
    match neb.getTransaction h with
    | none => (Except.error "transaction not found", false)
    | some tx =>
      match neb.estimateGas tx with
      | Except.error e => (Except.error e, true)
      | Except.ok gas => (Except.ok { gas := toString gas }, true)

/-- `GetEventsByHash` (`api_service.go:599-627`): hex-decode the hash (the
decode error is discarded), look the transaction up in the tail block; a
lookup error is propagated; a present transaction's events are fetched and
formatted; a nil transaction falls through to `return nil, nil`, modelled as
`Except.ok none`. -/
def GetEventsByHash (neb : Neblet) (req : HashRequest) :
    Except GoError (Option EventsResponse) :=
  let bhash := (neb.fromHex req.hash).1
  match neb.tailBlock.getTransaction bhash with
  | (_, some e) => Except.error e
  | (some tx, none) =>
    match neb.tailBlock.fetchEvents (neb.txHash tx) with
    | (_, some e) => Except.error e
    | (result, none) =>
      let events := (result.getD []).map
        (fun v => ({ topic := v.topic, data := v.data } : EventResponse))
      Except.ok (some { events := events })
  | (none, none) => Except.ok none

/-- One arrival in a `Subscribe` session's select loop, together with the
outcomes of the external steps taken for it: a chain event carries whether the
outbound `gs.Send` for it fails; a network message carries its kind and the
outcomes of `proto.Unmarshal`, `FromProto`, `json.Marshal` and the outbound
`gs.Send`. -/
inductive SubIncoming where
  | chainEv (topic : String) (data : String) (sendFails : Bool)
  | netMsg (msgType : String) (unmarshalErr : Option GoError)
      (fromProtoErr : Option GoError) (marshalErr : Option GoError)
      (sendFails : Bool)

/-- An observable action of a `Subscribe` session: registrations,
deregistrations, and outbound send attempts (`ok` records whether the send
succeeded). -/
inductive SubAction where
  | registerTopic (t : String)
  | registerNet (k : String)
  | send (ok : Bool)
  | deregisterNet (k : String)
  | deregisterTopic (t : String)

/-- The select loop of `Subscribe` (`api_service.go:499-538`) over a given
arrival schedule (an exhausted schedule models caller cancellation).  A chain
event is sent and a failed send returns its error.  A network message of kind
new-block or new-transaction is decoded (`Unmarshal`, `FromProto`), marshalled
to JSON — each failure returning its error — and then sent; the source assigns
the send's error to the loop's `err` variable but never checks it, so the loop
continues after a failed network-path send; the next chain-event arm
overwrites `err` before testing it, so the stale error never surfaces.  A
message of any other kind matches no switch case and is skipped. -/
def subscribeLoop : List SubIncoming → List SubAction × Option GoError
  | [] => ([], none)
  | SubIncoming.chainEv _ _ sendFails :: rest =>
    if sendFails then ([SubAction.send false], some "send error")
    else
      let (acts, e) := subscribeLoop rest
      (SubAction.send true :: acts, e)
  | SubIncoming.netMsg msgType unmarshalErr fromProtoErr marshalErr sendFails :: rest =>
    if msgType = MessageTypeNewBlock then
      match unmarshalErr with
      | some e => ([], some e)
      | none =>
        match fromProtoErr with
        | some e => ([], some e)
        | none =>
          match marshalErr with
          | some e => ([], some e)
          | none =>
            let (acts, e) := subscribeLoop rest
            (SubAction.send (!sendFails) :: acts, e)
    else if msgType = MessageTypeNewTx then
      match unmarshalErr with
      | some e => ([], some e)
      | none =>
        match fromProtoErr with
        | some e => ([], some e)
        | none =>
          match marshalErr with
          | some e => ([], some e)
          | none =>
            let (acts, e) := subscribeLoop rest
            (SubAction.send (!sendFails) :: acts, e)
    else
      subscribeLoop rest

/-- `Subscribe` (`api_service.go:470-539`): register the chain-event channel
for every requested topic and the network channel for both message kinds, run
the select loop, and on exit run the deferred deregistrations in LIFO order
(net new-transaction, net new-block, then every topic). -/
def Subscribe (topics : List String) (sched : List SubIncoming) :
    List SubAction × Option GoError :=
  let (loopActs, err) := subscribeLoop sched
  (topics.map SubAction.registerTopic
     ++ [SubAction.registerNet MessageTypeNewBlock,
         SubAction.registerNet MessageTypeNewTx]
     ++ loopActs
     ++ (SubAction.deregisterNet MessageTypeNewTx ::
         SubAction.deregisterNet MessageTypeNewBlock ::
         topics.map SubAction.deregisterTopic),
   err)

/-- The deploy-contract group of a request is populated: a non-nil contract
group with non-empty `Source` (spec §3). -/
def deployPopulated (req : TransactionRequest) : Prop :=
  match req.contract with
  | some c => 0 < c.source.length
  | none => False

/-- The call-contract group of a request is populated: a non-nil contract
group with non-empty `Function` (spec §3). -/
def callPopulated (req : TransactionRequest) : Prop :=
  match req.contract with
  | some c => 0 < c.function.length
  | none => False

/-- An event whose topic is one of the two execution-result topics — the
events the receipt-status derivation reacts to (spec §4.4). -/
def isExecTopic (e : Event) : Bool :=
  decide (e.topic = TopicExecuteTxSuccess ∨ e.topic = TopicExecuteTxFailed)

/-- The first success- or failure-topic event in a fetched event list, in the
collaborator's return order (spec §4.4). -/
def firstExecEvent (evs : List Event) : Option Event :=
  evs.find? isExecTopic

/-- A concrete address used by the test fixture (`addressParse` below returns
empty bytes and the input string). -/
def addrFixA : Address := { bytes := [], str := "A" }

/-- A concrete tail block for witnesses: every account has balance 7 and
nonce 4; no transactions, no events. -/
def blockFix : Block :=
  { hash := [9], parentHash := [8], height := 5, nonce := 0,
    coinbase := { bytes := [], str := "CB" },
    miner := { bytes := [], str := "M" },
    timestamp := 0, chainID := 100,
    stateRoot := [1], txsRoot := [2], eventsRoot := [3],
    dposContext := ⟨[], [], [], [], [], []⟩,
    transactions := [],
    getBalance := fun _ => 7,
    getNonce := fun _ => 4,
    fetchEvents := fun _ => (none, none),
    getTransaction := fun _ => (none, none) }

/-- A concrete environment for witnesses: every collaborator succeeds, every
address string parses, and the numeric parser returns 0. -/
def nebFix : Neblet :=
  { chainID := 100,
    tailBlock := blockFix,
    latestIrreversibleBlock := some blockFix,
    getBlockOnCanonicalChainByHeight := fun _ => none,
    getBlock := fun _ => none,
    getTransaction := fun _ => none,
    addressParse := fun s => Except.ok { bytes := [], str := s },
    fromHex := fun _ => ([0], none),
    newUint128FromString := fun _ => 0,
    signTransactionErr := fun _ _ => none,
    pushAndBroadcastErr := fun _ => none,
    estimateGas := fun _ => Except.ok 21000,
    sha3256 := fun bs => bs.flatten,
    newContractAddressFromHash := fun b => { bytes := b, str := toString b },
    txHash := fun t => [t.nonce],
    hexOf := fun b => toString b,
    now := 0,
    deployPayloadBytes := fun _ _ _ => Except.ok [1],
    callPayloadBytes := fun _ _ => Except.ok [2],
    candidatePayloadBytes := fun _ => Except.ok [3],
    delegatePayloadBytes := fun _ _ => Except.ok [4] }

/-- C1: for every request whose sender address parses and whose nonce is at
most the sender's nonce at the tail block, `sendTransaction` fails with the
nonce error and invokes neither the signing collaborator nor the pool. -/
theorem sendTransaction_rejects_low_nonce (neb : Neblet) (req : TransactionRequest)
    (addr : Address) (hparse : neb.addressParse req.fromStr = Except.ok addr)
    (hnonce : req.nonce ≤ neb.tailBlock.getNonce addr.bytes) :
    sendTransaction neb req =
      (Except.error "nonce is invalid", { signed := false, pushed := false }) := by
  unfold sendTransaction
  rw [hparse]
  simp [hnonce]

/-- A plain-transfer request with nonce 3 against a tail nonce of 4. -/
def reqC1 : TransactionRequest :=
  { fromStr := "A", toStr := "B", value := "1", nonce := 3, gasPrice := "1",
    gasLimit := "1", contract := none, candidate := none, delegate := none }

/-- Witness for C1 at the concrete fixture. -/
theorem sendTransaction_rejects_low_nonce_witness :
    sendTransaction nebFix reqC1 =
      (Except.error "nonce is invalid", { signed := false, pushed := false }) :=
  sendTransaction_rejects_low_nonce nebFix reqC1 addrFixA rfl (by decide)

/-- C2: the full payload selection precedence of `parseTransaction`,
deploy > call > candidate > delegate > plain transfer: a populated
deploy-contract group always yields a Deploy transaction and never a Call one
(in particular when the call group is populated too); with no populated deploy
group, a populated call group yields a Call transaction (whatever the
candidate/delegate groups hold); with neither contract group populated, a
present candidate group yields a Candidate transaction (whatever the delegate
group holds); then a present delegate group yields a Delegate transaction;
and with no group populated the transaction is a plain binary transfer with a
nil payload. -/
theorem parseTransaction_payload_precedence (neb : Neblet)
    (req : TransactionRequest) (tx : Transaction)
    (hok : parseTransaction neb req = Except.ok tx) :
    (deployPopulated req →
      tx.payloadType = TxPayloadDeployType ∧ tx.payloadType ≠ TxPayloadCallType) ∧
    (¬ deployPopulated req → callPopulated req →
      tx.payloadType = TxPayloadCallType) ∧
    (¬ deployPopulated req → ¬ callPopulated req → req.candidate ≠ none →
      tx.payloadType = TxPayloadCandidateType) ∧
    (¬ deployPopulated req → ¬ callPopulated req → req.candidate = none →
      req.delegate ≠ none → tx.payloadType = TxPayloadDelegateType) ∧
    (¬ deployPopulated req → ¬ callPopulated req →
      req.candidate = none → req.delegate = none →
      tx.payloadType = TxPayloadBinaryType ∧ tx.payload = []) := by
  simp only [parseTransaction] at hok
  cases hp : neb.addressParse req.fromStr with
  | error e => rw [hp] at hok; exact absurd hok (by simp)
  | ok fromAddr =>
    rw [hp] at hok
    cases hq : neb.addressParse req.toStr with
    | error e => rw [hq] at hok; exact absurd hok (by simp)
    | ok toAddr =>
      rw [hq] at hok
      simp only [] at hok
      cases hsel : (selectPayload neb req).2 with
      | error e => rw [hsel] at hok; exact absurd hok (by simp)
      | ok payload =>
        rw [hsel] at hok
        simp only [Except.ok.injEq] at hok
        have htype : tx.payloadType = (selectPayload neb req).1 := by
          rw [← hok]; rfl
        have hpay : tx.payload = payload := by
          rw [← hok]; rfl
        have hskip : ¬ deployPopulated req → ¬ callPopulated req →
            selectPayload neb req = selectNonContract neb req := by
          intro hnd hnc
          cases hc : req.contract with
          | none => simp only [selectPayload, hc]
          | some c =>
            simp only [deployPopulated, hc] at hnd
            simp only [callPopulated, hc] at hnc
            simp only [selectPayload, hc, if_neg hnd, if_neg hnc]
        refine ⟨?_, ?_, ?_, ?_, ?_⟩
        · intro hd
          cases hc : req.contract with
          | none => simp only [deployPopulated, hc] at hd
          | some c =>
            simp only [deployPopulated, hc] at hd
            have : (selectPayload neb req).1 = TxPayloadDeployType := by
              simp only [selectPayload, hc, if_pos hd]
            rw [htype, this]
            exact ⟨rfl, by decide⟩
        · intro hnd hnc
          cases hc : req.contract with
          | none => simp only [callPopulated, hc] at hnc
          | some c =>
            simp only [deployPopulated, hc] at hnd
            simp only [callPopulated, hc] at hnc
            rw [htype]
            simp only [selectPayload, hc, if_neg hnd, if_pos hnc]
        · intro hnd hnc hcd
          rw [htype, hskip hnd hnc]
          cases hcand : req.candidate with
          | none => exact absurd hcand hcd
          | some cd => simp only [selectNonContract, hcand]
        · intro hnd hnc hcand hdne
          rw [htype, hskip hnd hnc]
          cases hdel : req.delegate with
          | none => exact absurd hdel hdne
          | some d => simp only [selectNonContract, hcand, hdel]
        · intro hnd hnc hcand hdel
          have hsp : selectPayload neb req = (TxPayloadBinaryType, Except.ok []) := by
            rw [hskip hnd hnc]
            simp only [selectNonContract, hcand, hdel]
          refine ⟨by rw [htype, hsp], ?_⟩
          rw [hpay]
          rw [hsp] at hsel
          simp only [Except.ok.injEq] at hsel
          exact hsel.symm

/-- A request in which both the deploy-contract group (non-empty `Source`) and
the call-contract group (non-empty `Function`) are populated. -/
def reqC2 : TransactionRequest :=
  { fromStr := "A", toStr := "B", value := "1", nonce := 9, gasPrice := "1",
    gasLimit := "1",
    contract := some { source := "s", sourceType := "js", function := "f", args := "" },
    candidate := none, delegate := none }

/-- The transaction `parseTransaction` builds for `reqC2` under the fixture. -/
def txC2 : Transaction :=
  { chainID := 100, fromAddr := { bytes := [], str := "A" },
    toAddr := { bytes := [], str := "B" }, value := 0, nonce := 9,
    timestamp := 0, payloadType := TxPayloadDeployType, payload := [1],
    gasPrice := 0, gasLimit := 0 }

/-- A request whose contract group has an empty `Source` but a non-empty
`Function`, alongside a present candidate group: call must beat candidate. -/
def reqC2b : TransactionRequest :=
  { fromStr := "A", toStr := "B", value := "1", nonce := 9, gasPrice := "1",
    gasLimit := "1",
    contract := some { source := "", sourceType := "", function := "f", args := "" },
    candidate := some { action := "a" }, delegate := none }

/-- The transaction `parseTransaction` builds for `reqC2b` under the fixture:
a Call transaction, not a Candidate one. -/
def txC2b : Transaction :=
  { chainID := 100, fromAddr := { bytes := [], str := "A" },
    toAddr := { bytes := [], str := "B" }, value := 0, nonce := 9,
    timestamp := 0, payloadType := TxPayloadCallType, payload := [2],
    gasPrice := 0, gasLimit := 0 }

/-- Witness for C2: a request with both the deploy and the call group
populated parses to a Deploy transaction, not a Call one; and a request with a
populated call group plus a present candidate group parses to a Call
transaction. -/
theorem parseTransaction_payload_precedence_witness :
    (txC2.payloadType = TxPayloadDeployType ∧ txC2.payloadType ≠ TxPayloadCallType) ∧
    txC2b.payloadType = TxPayloadCallType :=
  ⟨(parseTransaction_payload_precedence nebFix reqC2 txC2 rfl).1
      (show 0 < "s".length by decide),
   (parseTransaction_payload_precedence nebFix reqC2b txC2b rfl).2.1
      (show ¬ 0 < "".length by decide) (show 0 < "f".length by decide)⟩

/-- The status loop returns 2 never; over any event list it is decided by the
first success- or failure-topic event, defaulting to 0. -/
theorem statusLoop_eq_firstExecEvent (evs : List Event) :
    statusLoop evs =
      (match firstExecEvent evs with
       | some e => if e.topic = TopicExecuteTxSuccess then 1 else 0
       | none => 0) := by
  induction evs with
  | nil => rfl
  | cons e rest ih =>
    by_cases hs : e.topic = TopicExecuteTxSuccess
    · simp [statusLoop, firstExecEvent, List.find?, isExecTopic, hs]
    · by_cases hf : e.topic = TopicExecuteTxFailed
      · simp [statusLoop, firstExecEvent, List.find?, isExecTopic, hs, hf]
      · simpa [statusLoop, firstExecEvent, List.find?, isExecTopic, hs, hf] using ih

/-- C3 (amended): the receipt status is 2 ("pending") exactly when the tail
block's event lookup returns a nil list; when a (possibly empty) list is
returned, the first success- or failure-topic event in the collaborator's
order decides the status (success ⇒ 1, failure ⇒ 0), and a list with no such
event yields the default status 0 ("failed"), not 2. -/
theorem toTransactionResponse_status_by_first_event (neb : Neblet) (tx : Transaction) :
    (toTransactionResponse neb tx).status =
      (match (neb.tailBlock.fetchEvents (neb.txHash tx)).1 with
       | none => 2
       | some evs =>
         match firstExecEvent evs with
         | some e => if e.topic = TopicExecuteTxSuccess then 1 else 0
         | none => 0) := by
  unfold toTransactionResponse
  cases h : (neb.tailBlock.fetchEvents (neb.txHash tx)).1 with
  | none => simp [h]
  | some evs => simp [h, statusLoop_eq_firstExecEvent]

/-- A binary transaction used for the C3 counterexample. -/
def txC3 : Transaction :=
  { chainID := 100, fromAddr := { bytes := [], str := "A" },
    toAddr := { bytes := [], str := "B" }, value := 0, nonce := 2,
    timestamp := 0, payloadType := TxPayloadBinaryType, payload := [],
    gasPrice := 0, gasLimit := 0 }

/-- An environment whose tail block returns a non-nil but empty event list
for every hash (Go `[]*core.Event{}`). -/
def nebC3 : Neblet :=
  { nebFix with tailBlock := { blockFix with fetchEvents := fun _ => (some [], none) } }

/-- C3 counterexample: the tail block holds no execution event at all for the
transaction's hash (the lookup returns a non-nil empty list), yet the status
is 0 ("failed"), not 2 ("pending") as the claim requires. -/
theorem toTransactionResponse_empty_events_not_pending :
    (nebC3.tailBlock.fetchEvents (nebC3.txHash txC3)).1 = some [] ∧
    (toTransactionResponse nebC3 txC3).status = 0 ∧
    (toTransactionResponse nebC3 txC3).status ≠ 2 :=
  ⟨rfl, rfl, by decide⟩

/-- A plain-transfer request whose three numeric fields are all malformed
decimal strings. -/
def reqC5 : TransactionRequest :=
  { fromStr := "A", toStr := "B", value := "not-a-number", nonce := 1,
    gasPrice := "", gasLimit := "-3", contract := none, candidate := none,
    delegate := none }

/-- The transaction `parseTransaction` builds for `reqC5` under the fixture. -/
def txC5 : Transaction :=
  { chainID := 100, fromAddr := { bytes := [], str := "A" },
    toAddr := { bytes := [], str := "B" }, value := 0, nonce := 1,
    timestamp := 0, payloadType := TxPayloadBinaryType, payload := [],
    gasPrice := 0, gasLimit := 0 }

/-- C5: `parseTransaction` has no failure path for the numeric fields — the
single-return numeric parser is total, so a request whose value, gas price and
gas limit are all malformed still builds a transaction, and no choice of
numeric strings can make construction fail. -/
theorem parseTransaction_accepts_malformed_numeric_strings :
    parseTransaction nebFix reqC5 = Except.ok txC5 ∧
    ∀ v gp gl : String,
      parseTransaction nebFix
        { reqC5 with value := v, gasPrice := gp, gasLimit := gl } =
        Except.ok txC5 :=
  ⟨rfl, fun _ _ _ => rfl⟩

/-- A binary transaction carried by the C4 fixture block. -/
def txC4 : Transaction :=
  { chainID := 100, fromAddr := { bytes := [], str := "A" },
    toAddr := { bytes := [], str := "B" }, value := 1, nonce := 6,
    timestamp := 0, payloadType := TxPayloadBinaryType, payload := [],
    gasPrice := 1, gasLimit := 1 }

/-- A block holding one transaction. -/
def blockC4 : Block := { blockFix with transactions := [txC4] }

/-- An environment in which every block-hash lookup finds `blockC4`. -/
def nebC4 : Neblet := { nebFix with getBlock := fun _ => some blockC4 }

/-- The block response the code actually returns for `blockC4`: all header and
dpos fields filled, but an empty transaction list. -/
def respC4 : BlockResponse :=
  { hash := nebC4.hexOf blockC4.hash
    parentHash := nebC4.hexOf blockC4.parentHash
    height := blockC4.height
    nonce := blockC4.nonce
    coinbase := blockC4.coinbase.str
    miner := blockC4.miner.str
    timestamp := blockC4.timestamp
    chainId := blockC4.chainID
    stateRoot := nebC4.hexOf blockC4.stateRoot
    txsRoot := nebC4.hexOf blockC4.txsRoot
    eventsRoot := nebC4.hexOf blockC4.eventsRoot
    dposContext :=
      { dynastyRoot := nebC4.hexOf blockC4.dposContext.dynastyRoot
        nextDynastyRoot := nebC4.hexOf blockC4.dposContext.nextDynastyRoot
        delegateRoot := nebC4.hexOf blockC4.dposContext.delegateRoot
        candidateRoot := nebC4.hexOf blockC4.dposContext.candidateRoot
        voteRoot := nebC4.hexOf blockC4.dposContext.voteRoot
        mintCntRoot := nebC4.hexOf blockC4.dposContext.mintCntRoot }
    transactions := [] }

/-- C4: a resolved block holding one transaction is formatted with an EMPTY
transaction list, with the full-transaction flag both set and unset — the
source computes the per-transaction list but never assigns it to the
response, so the claimed behaviour (hashes or full detail in the response)
never happens. -/
theorem toBlockResponse_drops_transactions :
    blockC4.transactions ≠ [] ∧
    GetBlockByHash nebC4 { hash := "09", fullTransaction := true } = Except.ok respC4 ∧
    GetBlockByHash nebC4 { hash := "09", fullTransaction := false } = Except.ok respC4 ∧
    respC4.transactions = [] :=
  ⟨show [txC4] ≠ [] from List.cons_ne_nil txC4 [], rfl, rfl, rfl⟩

/-- C6: on the success path of `sendTransaction` for a Deploy transaction the
reported contract address is exactly the spec derivation
`generateContractAddress` — the hash of (from-address bytes ‖ nonce bytes) —
and for any transaction `t'` with the same sender and nonce (its value, gas
price, gas limit and payload may all differ) the receipt-time formatter
recomputes the same address. -/
theorem sendTransaction_deploy_contract_address (neb : Neblet)
    (req : TransactionRequest) (tx t' : Transaction)
    (resp : SendTransactionResponse) (eff : SubmitEffects)
    (hparse : parseTransaction neb req = Except.ok tx)
    (hsend : sendTransaction neb req = (Except.ok resp, eff))
    (hdeploy : tx.payloadType = TxPayloadDeployType)
    (hfrom : t'.fromAddr = tx.fromAddr) (hnonce : t'.nonce = tx.nonce)
    (hdeploy' : t'.payloadType = TxPayloadDeployType) :
    resp.contractAddress = (generateContractAddress neb tx).str ∧
    (toTransactionResponse neb t').contractAddress = resp.contractAddress := by
  have h1 : resp.contractAddress = (generateContractAddress neb tx).str := by
    simp only [sendTransaction] at hsend
    cases hp : neb.addressParse req.fromStr with
    | error e => rw [hp] at hsend; exact absurd hsend (by simp)
    | ok addr =>
      rw [hp] at hsend
      simp only [] at hsend
      by_cases hn : req.nonce ≤ neb.tailBlock.getNonce addr.bytes
      · rw [if_pos hn] at hsend; exact absurd hsend (by simp)
      · rw [if_neg hn, hparse] at hsend
        simp only [] at hsend
        cases hs : neb.signTransactionErr tx.fromAddr tx with
        | some e => rw [hs] at hsend; exact absurd hsend (by simp)
        | none =>
          rw [hs] at hsend
          simp only [] at hsend
          cases hpush : neb.pushAndBroadcastErr tx with
          | some e => rw [hpush] at hsend; exact absurd hsend (by simp)
          | none =>
            rw [hpush] at hsend
            simp only [] at hsend
            rw [if_pos hdeploy] at hsend
            simp only [Prod.mk.injEq, Except.ok.injEq] at hsend
            rw [← hsend.1]
            rfl
  refine ⟨h1, ?_⟩
  have h2 : (toTransactionResponse neb t').contractAddress =
      (generateContractAddress neb t').str := by
    simp [toTransactionResponse, hdeploy']
  have h3 : generateContractAddress neb t' = generateContractAddress neb tx := by
    unfold generateContractAddress
    rw [hfrom, hnonce]
  rw [h2, h3, h1]

/-- A deploy request whose nonce 9 exceeds the fixture's tail nonce 4. -/
def reqC6 : TransactionRequest :=
  { fromStr := "A", toStr := "B", value := "1", nonce := 9, gasPrice := "2",
    gasLimit := "3",
    contract := some { source := "s", sourceType := "js", function := "", args := "" },
    candidate := none, delegate := none }

/-- The transaction `parseTransaction` builds for `reqC6` under the fixture. -/
def txC6 : Transaction :=
  { chainID := 100, fromAddr := { bytes := [], str := "A" },
    toAddr := { bytes := [], str := "B" }, value := 0, nonce := 9,
    timestamp := 0, payloadType := TxPayloadDeployType, payload := [1],
    gasPrice := 0, gasLimit := 0 }

/-- The same transaction with different value, gas price, gas limit and
payload. -/
def txC6var : Transaction :=
  { txC6 with value := 77, gasPrice := 88, gasLimit := 99, payload := [5] }

/-- The response `sendTransaction` returns for `reqC6` under the fixture. -/
def respC6 : SendTransactionResponse :=
  { txhash := nebFix.hexOf (nebFix.txHash txC6),
    contractAddress := (nebFix.newContractAddressFromHash
      (nebFix.sha3256 [txC6.fromAddr.bytes, fromUint64 txC6.nonce])).str }

/-- Witness for C6 at the concrete fixture. -/
theorem sendTransaction_deploy_contract_address_witness :
    respC6.contractAddress = (generateContractAddress nebFix txC6).str ∧
    (toTransactionResponse nebFix txC6var).contractAddress = respC6.contractAddress :=
  sendTransaction_deploy_contract_address nebFix reqC6 txC6 txC6var respC6
    ⟨true, true⟩ rfl rfl rfl rfl rfl rfl

/-- C7: for a request whose address parses, height 0 (which is also proto3's
unset height) resolves against the current tail block, and a positive height
that does not resolve to a block on the canonical chain fails with the
not-found error. -/
theorem GetAccountState_height_semantics (neb : Neblet)
    (req : GetAccountStateRequest) (addr : Address)
    (hparse : neb.addressParse req.address = Except.ok addr) :
    (req.height = 0 →
      GetAccountState neb req = Except.ok
        { balance := toString (neb.tailBlock.getBalance addr.bytes),
          nonce := toString (neb.tailBlock.getNonce addr.bytes) }) ∧
    (0 < req.height → neb.getBlockOnCanonicalChainByHeight req.height = none →
      GetAccountState neb req = Except.error "block not found") := by
  constructor
  · intro h0
    unfold GetAccountState
    rw [hparse]
    simp [h0]
  · intro hpos hnone
    unfold GetAccountState
    rw [hparse]
    simp [hpos, hnone]

/-- An account-state request with height 0 (tail). -/
def reqC7a : GetAccountStateRequest := { address := "A", height := 0 }

/-- An account-state request with a height absent from the canonical chain. -/
def reqC7b : GetAccountStateRequest := { address := "A", height := 3 }

/-- Witness for C7 at the concrete fixture: height 0 reads the tail block's
balance and nonce; an unresolvable positive height fails. -/
theorem GetAccountState_height_semantics_witness :
    GetAccountState nebFix reqC7a = Except.ok
      { balance := toString (nebFix.tailBlock.getBalance addrFixA.bytes),
        nonce := toString (nebFix.tailBlock.getNonce addrFixA.bytes) } ∧
    GetAccountState nebFix reqC7b = Except.error "block not found" :=
  ⟨(GetAccountState_height_semantics nebFix reqC7a addrFixA rfl).1 rfl,
   (GetAccountState_height_semantics nebFix reqC7b addrFixA rfl).2 (by decide) rfl⟩

/-- C8: `GetGasUsed` resolves the transaction by hash first: when the hex
decode succeeds but the transaction is absent it fails with the not-found
error without invoking the dry-run estimator; when the transaction exists the
estimator is invoked and its result (value or error) is returned. -/
theorem GetGasUsed_requires_transaction (neb : Neblet) (req : HashRequest)
    (h : Bytes) (hhex : neb.fromHex req.hash = (h, none)) :
    (neb.getTransaction h = none →
      GetGasUsed neb req = (Except.error "transaction not found", false)) ∧
    (∀ tx, neb.getTransaction h = some tx →
      GetGasUsed neb req =
        ((match neb.estimateGas tx with
          | Except.error e => Except.error e
          | Except.ok gas => Except.ok { gas := toString gas }), true)) := by
  constructor
  · intro habs
    unfold GetGasUsed
    rw [hhex]
    simp only [] 
    rw [habs]
  · intro tx hpres
    unfold GetGasUsed
    rw [hhex]
    simp only []
    rw [hpres]
    simp only []
    cases neb.estimateGas tx with
    | error e => rfl
    | ok gas => rfl

/-- A transaction found by the C8 present-transaction environment. -/
def txC8 : Transaction :=
  { chainID := 100, fromAddr := { bytes := [], str := "A" },
    toAddr := { bytes := [], str := "B" }, value := 2, nonce := 8,
    timestamp := 0, payloadType := TxPayloadBinaryType, payload := [],
    gasPrice := 1, gasLimit := 1 }

/-- An environment in which every chain transaction lookup finds `txC8`. -/
def nebC8 : Neblet := { nebFix with getTransaction := fun _ => some txC8 }

/-- Witness for C8: an absent transaction fails with not-found and no
estimator call; a present one returns the estimator's value. -/
theorem GetGasUsed_requires_transaction_witness :
    GetGasUsed nebFix { hash := "00" } = (Except.error "transaction not found", false) ∧
    GetGasUsed nebC8 { hash := "00" } = (Except.ok { gas := toString (21000 : Nat) }, true) :=
  ⟨(GetGasUsed_requires_transaction nebFix { hash := "00" } [0] rfl).1 rfl,
   (GetGasUsed_requires_transaction nebC8 { hash := "00" } [0] rfl).2 txC8 rfl⟩

/-- C10: when the tail block's transaction lookup succeeds (nil error) but
yields a nil transaction, `GetEventsByHash` returns a nil response together
with a nil error — not a not-found error and not an empty event list. -/
theorem GetEventsByHash_nil_transaction_nil_result (neb : Neblet)
    (req : HashRequest)
    (hlookup : neb.tailBlock.getTransaction (neb.fromHex req.hash).1 = (none, none)) :
    GetEventsByHash neb req = Except.ok none := by
  simp only [GetEventsByHash]
  rw [hlookup]

/-- Witness for C10 at the concrete fixture (its tail block's lookup returns
`(nil, nil)` for every hash). -/
theorem GetEventsByHash_nil_transaction_nil_result_witness :
    GetEventsByHash nebFix { hash := "00" } = Except.ok none :=
  GetEventsByHash_nil_transaction_nil_result nebFix { hash := "00" } rfl

/-- A schedule for C9: a network new-block announcement that decodes and
marshals fine but whose outbound send FAILS, followed by a chain event whose
send succeeds; the schedule then ends (caller cancellation). -/
def schedC9 : List SubIncoming :=
  [SubIncoming.netMsg MessageTypeNewBlock none none none true,
   SubIncoming.chainEv "topicA" "d" false]

/-- C9: the session keeps streaming after an outbound send failure.  On
`schedC9` the failed send of the decoded new-block message (`send false`) is
followed by a further successful send of the next chain event (`send true`),
and the loop exits with no error only when the schedule ends — the source
assigns the network-path send error to `err` but never checks it.  The
deferred deregistrations (both message kinds, then every topic) still run
exactly once on exit. -/
theorem Subscribe_continues_after_failed_net_send :
    Subscribe ["topicA"] schedC9 =
      ([SubAction.registerTopic "topicA",
        SubAction.registerNet MessageTypeNewBlock,
        SubAction.registerNet MessageTypeNewTx,
        SubAction.send false,
        SubAction.send true,
        SubAction.deregisterNet MessageTypeNewTx,
        SubAction.deregisterNet MessageTypeNewBlock,
        SubAction.deregisterTopic "topicA"], none) := rfl
